import Mathlib

/-!
Verification of the contacts/auth REST backend (goit-pythonweb-hw-10).

Shallow embedding of the data model, the repository layer
(src/repository/repository.py, src/repository/users.py), the token service
(src/services/auth.py) and the relevant HTTP handlers
(src/api/v1/auth.py, src/api/v1/endpoints/contacts.py) into Lean, together
with theorems settling the specification claims.

Conventions: the async database session is modelled as an explicit state
(a list of rows plus a commit counter); Python exceptions are modelled with
Except; python dates are triples year/month/day with the Gregorian calendar
rules of datetime.date.
-/

namespace ContactsApp

/-! ## Dates (python datetime.date) -/

/-- A calendar date as used by python `datetime.date`. -/
structure PyDate where
  year : Nat
  month : Nat
  day : Nat
deriving DecidableEq, Repr

/-- Gregorian leap-year rule, as implemented by python `calendar.isleap` and
used by `datetime.date` arithmetic. -/
def isLeapYear (y : Nat) : Bool :=
  (y % 4 == 0 && !(y % 100 == 0)) || y % 400 == 0

/-- Number of days of month `m` in year `y` (python `calendar.monthrange`). -/
def daysInMonth (y m : Nat) : Nat :=
  if m = 2 then (if isLeapYear y then 29 else 28)
  else if m = 4 ∨ m = 6 ∨ m = 9 ∨ m = 11 then 30
  else 31

/-- A structurally valid Gregorian date. -/
def ValidDate (d : PyDate) : Prop :=
  1 ≤ d.month ∧ d.month ≤ 12 ∧ 1 ≤ d.day ∧ d.day ≤ daysInMonth d.year d.month

instance (d : PyDate) : Decidable (ValidDate d) := by
  unfold ValidDate; exact inferInstance

/-- The day after `d` (one step of python `date + timedelta(days=1)`). -/
def nextDate (d : PyDate) : PyDate :=
  if d.day < daysInMonth d.year d.month then ⟨d.year, d.month, d.day + 1⟩
  else if d.month < 12 then ⟨d.year, d.month + 1, 1⟩
  else ⟨d.year + 1, 1, 1⟩

/-- Python `d + timedelta(days=k)` for a nonnegative number of days. -/
def addDays (d : PyDate) : Nat → PyDate
  | 0 => d
  | k + 1 => nextDate (addDays d k)

/-- The first day of the month after the month of `d`. -/
def nextMonthStart (d : PyDate) : PyDate :=
  if d.month < 12 then ⟨d.year, d.month + 1, 1⟩ else ⟨d.year + 1, 1, 1⟩

/-! ## HTTP and python error model -/

/-- A fastapi `HTTPException`: status code and detail message. -/
structure HTTPEx where
  statusCode : Nat
  detail : String
deriving DecidableEq, Repr

/-- An error escaping a request handler: either an `HTTPException` that the
framework maps to its status code, or an uncaught python `AttributeError`
(surfacing as a 500). -/
inductive PyErr where
  | http (e : HTTPEx)
  | attributeError
deriving DecidableEq, Repr

/-! ## Token service (src/services/auth.py, class AuthService)

A JWT is modelled by its claims (`email`, `scope`, `exp` in epoch seconds)
plus a flag saying whether its signature verifies against
`settings.SECRET_KEY`; `jose.jwt.decode` raises `JWTError` exactly when the
signature does not verify or the `exp` claim is in the past. -/

/-- A signed token as seen by `jose.jwt`: its payload claims and whether its
signature verifies against the configured secret. -/
structure Token where
  email : Option String
  scope : Option String
  exp : Int
  sigValid : Bool
deriving DecidableEq, Repr

/-- `AuthService.create_jwt_token` (src/services/auth.py:79-84): stamps the
payload with an expiry `expires_delta` minutes from now and the given scope,
and signs it with the configured secret (so its signature verifies). -/
def create_jwt_token (now : Int) (email : Option String)
    (scope : String := "access_token") (expires_delta : Int := 15) : Token :=
  { email := email
    scope := some scope
    exp := now + expires_delta * 60
    sigValid := true }

/-- `AuthService.decode_jwt_token` (src/services/auth.py:86-99): `jose`
raises `JWTError` on a bad signature or a past expiry, which the method
turns into a 401; a scope claim different from the expected one is also a
401; otherwise the `email` claim (possibly absent) is returned. -/
def decode_jwt_token (now : Int) (t : Token)
    (scope : String := "access_token") : Except HTTPEx (Option String) :=
  if t.sigValid = false ∨ t.exp < now then
    .error ⟨401, "Could not validate credentials"⟩
  else if t.scope ≠ some scope then
    .error ⟨401, "Invalid token scope"⟩
  else
    .ok t.email

/-- `AuthService.decode_verification_token` (src/services/auth.py:101-103):
delegates to `decode_jwt_token` with scope `verification_token`. -/
def decode_verification_token (now : Int) (t : Token) :
    Except HTTPEx (Option String) :=
  decode_jwt_token now t "verification_token"

/-! ## Users: model, repository (src/database/models.py, src/repository/users.py) -/

/-- `UserModel` (src/database/models.py:11-19). `created_at` is kept as an
opaque string. -/
structure UserModel where
  id : Nat
  username : String
  email : String
  hashed_password : String
  created_at : String
  avatar : Option String
  confirmed : Bool
deriving DecidableEq, Repr

/-- `UserUpdateSchema` (src/schemas/users.py:46-53): every field optional;
`none` models a field absent from the request (pydantic `exclude_unset`). -/
structure UserUpdateSchema where
  username : Option String := none
  email : Option String := none
  avatar : Option String := none
deriving DecidableEq, Repr

/-- `UserCreateSchema` (src/schemas/users.py:16-21): username, email and
password only — it defines no `avatar` or `confirmed` field. -/
structure UserCreateSchema where
  username : String
  email : String
  password : String
deriving DecidableEq, Repr

/-- The users table together with a count of committed transactions, the
explicit-state rendering of the `AsyncSession` used by `UserRepository`. -/
structure UsersDb where
  rows : List UserModel
  commits : Nat
deriving DecidableEq, Repr

/-- `UserRepository.get_user_by_email` (src/repository/users.py:48-54):
first row whose email matches. -/
def get_user_by_email (db : UsersDb) (email : String) : Option UserModel :=
  db.rows.find? (fun u => u.email == email)

/-- `UserRepository.get_user_by_id` (src/repository/users.py:56-60):
primary-key lookup. -/
def get_user_by_id (db : UsersDb) (user_id : Nat) : Option UserModel :=
  db.rows.find? (fun u => u.id == user_id)

/-- The `setattr` loop of `UserRepository.update_user`
(src/repository/users.py:70-71): assign exactly the fields present in
`model_dump(exclude_unset=True)`. -/
def applyUserUpdate (u : UserModel) (body : UserUpdateSchema) : UserModel :=
  { u with
    username := body.username.getD u.username
    email := body.email.getD u.email
    avatar := match body.avatar with
      | some a => some a
      | none => u.avatar }

/-- `UserRepository.update_user` (src/repository/users.py:62-74): fetch by
id; if absent return `None` untouched, otherwise assign the supplied fields,
commit, and return the refreshed row. -/
def update_user (db : UsersDb) (user_id : Nat) (body : UserUpdateSchema) :
    UsersDb × Option UserModel :=
  match db.rows.find? (fun u => u.id == user_id) with
  | none => (db, none)
  | some u =>
    let u' := applyUserUpdate u body
    ({ rows := db.rows.map (fun r => if r.id == user_id then applyUserUpdate r body else r)
       commits := db.commits + 1 }, some u')

/-- `UserRepository.create_user` (src/repository/users.py:17-37): the
`UserModel(...)` constructor call reads `user_in.avatar` and
`user_in.confirmed`, attributes `UserCreateSchema` does not define, so the
call raises `AttributeError` before anything is added to the session. -/
def create_user (_db : UsersDb) (_user_in : UserCreateSchema)
    (_hashed_password : String) : Except PyErr (UsersDb × UserModel) :=
  .error .attributeError

/-! ## Resolving the current user (src/services/auth.py:150-176)

The redis client declared at src/services/auth.py:70 is modelled as an
association list from email to a serialized user; `get_current_user`
receives it so the theorems can speak about whether it is read or written. -/

/-- The identity cache: email to pickled user record. -/
def IdentityCache := List (String × UserModel)

/-- `get_current_user` (src/services/auth.py:150-176): decode the bearer
token with scope `access_token`, 401 if the decoded email claim is absent,
then load the user from the database via `UserRepository`, 401 if absent.
The function never touches the redis client; the cache is returned
unchanged. -/
def get_current_user (now : Int) (token : Token) (cache : IdentityCache)
    (db : UsersDb) : Except HTTPEx UserModel × IdentityCache :=
  match decode_jwt_token now token "access_token" with
  | .error e => (.error e, cache)
  | .ok none => (.error ⟨401, "Could not validate credentials"⟩, cache)
  | .ok (some email) =>
    match get_user_by_email db email with
    | none => (.error ⟨401, "Could not validate credentials"⟩, cache)
    | some u => (.ok u, cache)

/-- Modelled from the spec: the resolver the specification describes —
look the identity up first in the identity cache, and only on a miss fall
back to the database, repopulating the cache (the short time-to-live is not
observable in this state model). Stated for comparison with
`get_current_user` above. -/
def spec_get_current_user (now : Int) (token : Token) (cache : IdentityCache)
    (db : UsersDb) : Except HTTPEx UserModel × IdentityCache :=
  match decode_jwt_token now token "access_token" with
  | .error e => (.error e, cache)
  | .ok none => (.error ⟨401, "Could not validate credentials"⟩, cache)
  | .ok (some email) =>
    match (List.find? (fun p => p.1 == email) cache : Option (String × UserModel)) with
    | some p => (.ok p.2, cache)
    | none =>
      match get_user_by_email db email with
      | none => (.error ⟨401, "Could not validate credentials"⟩, cache)
      | some u => (.ok u, (email, u) :: cache)

/-! ## Contacts: model, repository (src/database/models.py, src/repository/repository.py) -/

/-- `ContactsModel` (src/database/models.py:22-32). `other_info` is the
nullable free-text column. -/
structure ContactsModel where
  id : Nat
  first_name : String
  last_name : String
  email : String
  phone_number : String
  birthday : PyDate
  other_info : Option String
  user_id : Nat
deriving DecidableEq, Repr

/-- Modelled from the spec: the `ContactUpdate` pydantic schema
(src/schemas/schemas.py is absent from the sources; only its import at
src/repository/repository.py:4 remains). Per the spec a partial update may
carry any subset of the contact fields — first name, last name, email,
phone number, birthday, free-text note; `none` models a field absent from
the payload (pydantic `exclude_unset`). -/
structure ContactUpdate where
  first_name : Option String := none
  last_name : Option String := none
  email : Option String := none
  phone_number : Option String := none
  birthday : Option PyDate := none
  other_info : Option String := none
deriving DecidableEq, Repr

/-- The contacts table plus a count of committed transactions. -/
structure ContactsDb where
  rows : List ContactsModel
  commits : Nat
deriving DecidableEq, Repr

/-- The `setattr` loop of `update_contact` (src/repository/repository.py:81-82):
assign exactly the fields present in `model_dump(exclude_unset=True)`. -/
def applyContactUpdate (c : ContactsModel) (body : ContactUpdate) : ContactsModel :=
  { c with
    first_name := body.first_name.getD c.first_name
    last_name := body.last_name.getD c.last_name
    email := body.email.getD c.email
    phone_number := body.phone_number.getD c.phone_number
    birthday := body.birthday.getD c.birthday
    other_info := match body.other_info with
      | some s => some s
      | none => c.other_info }

/-- `get_contact_by_id` (src/repository/repository.py:52-64): primary-key
lookup via `db.get`. -/
def get_contact_by_id (db : ContactsDb) (contact_id : Nat) : Option ContactsModel :=
  db.rows.find? (fun c => c.id == contact_id)

/-- `update_contact` (src/repository/repository.py:67-85): fetch by id; if
absent return `None` with the session untouched (no commit), otherwise
assign the supplied fields, commit, and return the refreshed row. -/
def update_contact (db : ContactsDb) (contact_id : Nat) (body : ContactUpdate) :
    ContactsDb × Option ContactsModel :=
  match db.rows.find? (fun c => c.id == contact_id) with
  | none => (db, none)
  | some c =>
    let c' := applyContactUpdate c body
    ({ rows := db.rows.map (fun r => if r.id == contact_id then applyContactUpdate r body else r)
       commits := db.commits + 1 }, some c')

/-- `delete_contact` (src/repository/repository.py:88-106): fetch by id; if
absent return `None` with the session untouched (no commit), otherwise
delete the row, commit, and return the removed row. -/
def delete_contact (db : ContactsDb) (contact_id : Nat) :
    ContactsDb × Option ContactsModel :=
  match db.rows.find? (fun c => c.id == contact_id) with
  | none => (db, none)
  | some c =>
    ({ rows := db.rows.filter (fun r => !(r.id == contact_id))
       commits := db.commits + 1 }, some c)

/-! ## Filtered search (src/repository/repository.py:109-134) -/

/-- Lower-case a character the way `str.lower` does for ASCII. -/
def lowerChar (ch : Char) : Char := ch.toLower

/-- Whether `p` occurs as a contiguous sublist of `l`; the semantics of the
SQL pattern found between the two percent signs of `ilike(f"%v%")` when `v`
itself holds no wildcard. -/
def sublistOf (p : List Char) : List Char → Bool
  | [] => p.isEmpty
  | ch :: t => (List.isPrefixOf p (ch :: t)) || sublistOf p t

/-- Case-insensitive substring match: the meaning of
`column.ilike(f"%value%")` on a non-null column value. -/
def ilikeContains (value pat : String) : Bool :=
  sublistOf (pat.toList.map lowerChar) (value.toList.map lowerChar)

/-- The SQL text rendering of a date column compared by `ilike`. -/
def dateText (d : PyDate) : String :=
  toString d.year ++ "-" ++ toString d.month ++ "-" ++ toString d.day

/-- The mapped column of `ContactsModel` named by `field`, as the SQL text
it carries for `ilike` matching, or `none` for a NULL cell. Mirrors exactly
the mapped columns of src/database/models.py:24-31; `none` at the outer
level means `field` names no mapped column (the rest of the python class
namespace is handled separately, see `search_contacts_repo`). -/
def contactColumnText (c : ContactsModel) : String → Option (Option String)
  | "id" => some (some (toString c.id))
  | "first_name" => some (some c.first_name)
  | "last_name" => some (some c.last_name)
  | "email" => some (some c.email)
  | "phone_number" => some (some c.phone_number)
  | "birthday" => some (some (dateText c.birthday))
  | "other_info" => some c.other_info
  | "user_id" => some (some (toString c.user_id))
  | _ => none

/-- Whether `field` names a mapped column of `ContactsModel` — the names
for which `getattr(ContactsModel, field, None)` at
src/repository/repository.py:125 yields a column whose `ilike` builds a
usable condition. -/
def recognizedField (field : String) : Bool :=
  (contactColumnText
    { id := 0, first_name := "", last_name := "", email := "",
      phone_number := "", birthday := ⟨1, 1, 1⟩, other_info := none,
      user_id := 0 } field).isSome

/-- One condition `model_field.ilike(f"%value%")` applied to a row: a NULL
cell satisfies no `ilike` condition. -/
def contactFieldMatches (c : ContactsModel) (field value : String) : Bool :=
  match contactColumnText c field with
  | some (some text) => ilikeContains text value
  | some none => false
  | none => false

/-- Class attributes of `ContactsModel` beyond the mapped columns that are
known from the source: the `user` relationship (src/database/models.py:32),
the `__tablename__` string (models.py:23), and the `metadata` and
`registry` attributes every `DeclarativeBase` subclass carries. On any of
these, `getattr(ContactsModel, field, None)` is not `None`, and the
subsequent `model_field.ilike(f"%value%")` raises `AttributeError`. The
full python attribute namespace (object dunders and so on) is open-ended,
so the search below keeps it as an explicit parameter constrained to
behave like these names. -/
def knownNonColumnAttrs : List String :=
  ["user", "__tablename__", "metadata", "registry"]

/-- The condition-building loop of `search_contacts_repo`
(src/repository/repository.py:123-127), with `extra` telling which
non-column names are still found by `getattr` on the class: a mapped
column appends its condition, a non-column class attribute raises
`AttributeError` at `model_field.ilike(...)`, and a name bound to nothing
is skipped. -/
def searchConditions (extra : String → Bool) :
    List (String × String) → Except PyErr (List (String × String))
  | [] => .ok []
  | fv :: rest =>
    if recognizedField fv.1 then
      (searchConditions extra rest).map (fun cs => fv :: cs)
    else if extra fv.1 then .error .attributeError
    else searchConditions extra rest

/-- `search_contacts_repo` (src/repository/repository.py:109-134),
parameterized by the non-column part `extra` of the class attribute
namespace: empty filter mapping gives an empty list; keys bound to nothing
contribute no condition; a key naming a non-column class attribute raises;
if no condition remains the result is an empty list; otherwise the rows
satisfying the conjunction of all conditions. -/
def search_contacts_repo (extra : String → Bool) (db : ContactsDb)
    (filters : List (String × String)) : Except PyErr (List ContactsModel) :=
  if filters.isEmpty then .ok []
  else
    match searchConditions extra filters with
    | .error e => .error e
    | .ok conditions =>
      if conditions.isEmpty then .ok []
      else .ok (db.rows.filter
          (fun c => conditions.all (fun fv => contactFieldMatches c fv.1 fv.2)))

/-- `get_search_contacts` (src/api/v1/endpoints/contacts.py:95-112): run the
repository search (an escaping exception propagates) and raise a 404
`HTTPException` when the result list is empty. -/
def get_search_contacts (extra : String → Bool) (db : ContactsDb)
    (query : List (String × String)) : Except PyErr (List ContactsModel) :=
  match search_contacts_repo extra db query with
  | .error e => .error e
  | .ok contacts =>
    if contacts.isEmpty then
      .error (.http ⟨404, "No contacts found for the given criteria."⟩)
    else
      .ok contacts

/-! ## Upcoming birthdays (src/repository/repository.py:137-186) -/

/-- The WHERE clause built by `get_contacts_upcoming_birthdays`, applied to
one birthday `b`: when today and `today + days` share a month, birthdays of
that month between the two day numbers; otherwise the rest of the current
month or the start of the next month. -/
def birthdayCondition (today : PyDate) (days : Nat) (b : PyDate) : Bool :=
  let future_date := addDays today days
  if today.month = future_date.month then
    b.month == today.month && decide (today.day ≤ b.day) && decide (b.day ≤ future_date.day)
  else
    (b.month == today.month && decide (today.day ≤ b.day)) ||
    (b.month == future_date.month && decide (b.day ≤ future_date.day))

/-- `get_contacts_upcoming_birthdays` (src/repository/repository.py:137-186):
the rows whose birthday satisfies the WHERE clause above. -/
def get_contacts_upcoming_birthdays (today : PyDate) (db : ContactsDb)
    (days : Nat := 7) : List ContactsModel :=
  db.rows.filter (fun c => birthdayCondition today days c.birthday)

/-- Whether the month/day of `b` equals the month/day of some actual date in
the window `today .. today + days` (inclusive): the reading of "birthday
falls within the window" against which the query is checked. -/
def inBirthdayWindow (today : PyDate) (days : Nat) (b : PyDate) : Bool :=
  (List.range (days + 1)).any
    (fun k => (addDays today k).month == b.month && (addDays today k).day == b.day)

/-! ## Auth endpoints (src/api/v1/auth.py) -/

/-- `AuthService.hash_password` (src/services/auth.py:76-77): bcrypt is
modelled as an opaque tagging of the plaintext; nothing below depends on its
internals. -/
def hash_password (password : String) : String :=
  "bcrypt:" ++ password

/-- The result of a signup handler: the created user or an escaping error,
together with the resulting table state. -/
def SignupResult := (Except PyErr UserModel) × UsersDb

/-- The first `signup` handler (src/api/v1/auth.py:22-61): 409 when a user
with the same email already exists, otherwise hash the password and call
`create_user` (which raises before inserting, see `create_user`). -/
def signup_first (db : UsersDb) (body : UserCreateSchema) : SignupResult :=
  match get_user_by_email db body.email with
  | some _ => (.error (.http ⟨409, "Account already exists"⟩), db)
  | none =>
    match create_user db body (hash_password body.password) with
    | .error e => (.error e, db)
    | .ok (db', u) => (.ok u, db')

/-- The second `signup` handler (src/api/v1/auth.py:144-166): no duplicate
check; hashes the password and calls `create_user` directly. -/
def signup_second (db : UsersDb) (body : UserCreateSchema) : SignupResult :=
  match create_user db body (hash_password body.password) with
  | .error e => (.error e, db)
  | .ok (db', u) => (.ok u, db')

/-- The two registrations of `POST /auth/signup` on the router, in source
order (src/api/v1/auth.py:22 then 144). -/
def signupRoutes : List (String × (UsersDb → UserCreateSchema → SignupResult)) :=
  [("/auth/signup", signup_first), ("/auth/signup", signup_second)]

/-- Route dispatch for `POST /auth/signup`: starlette matches routes in
registration order and the first match handles the request, so the
duplicate-checking handler is the effective endpoint. -/
def signup (db : UsersDb) (body : UserCreateSchema) : SignupResult :=
  match signupRoutes.find? (fun r => r.1 == "/auth/signup") with
  | some route => route.2 db body
  | none => (.error (.http ⟨404, "Not Found"⟩), db)

/-- `request_email` (src/api/v1/auth.py:169-195). `RequestEmailSchema`
(src/schemas/auth.py, absent from the sources) carries the email address.
For a stored confirmed user the handler returns early with the
already-confirmed message. On every other path it reaches
`send_email(email=user_repo.email, ...)` at line 191, and `UserRepository`
has no attribute `email`, so an `AttributeError` escapes before the success
message is returned (and the scheduled background re-send never runs, since
background tasks only run after a successful response). -/
def request_email (db : UsersDb) (body_email : String) : Except PyErr String :=
  match get_user_by_email db body_email with
  | some u =>
    if u.confirmed then .ok "Your email is already confirmed"
    else .error .attributeError
  | none => .error .attributeError

/-! ## Public user shape (src/schemas/users.py:32-42) -/

/-- `UserResponseSchema` (src/schemas/users.py:32-42): the public shape —
id, username, email, created_at, avatar, confirmed; no password field. -/
structure UserResponseSchema where
  username : String
  email : String
  id : Nat
  created_at : Option String
  avatar : Option String
  confirmed : Bool
deriving DecidableEq, Repr

/-- The `from_attributes` conversion a `response_model=UserResponseSchema`
endpoint applies to a `UserModel` row before serializing it. -/
def toUserResponse (u : UserModel) : UserResponseSchema :=
  { username := u.username
    email := u.email
    id := u.id
    created_at := some u.created_at
    avatar := u.avatar
    confirmed := u.confirmed }

/-- The JSON object rendered from a `UserResponseSchema`, as key/value
pairs (values kept as display strings). -/
def userResponseJson (r : UserResponseSchema) : List (String × String) :=
  [("username", r.username),
   ("email", r.email),
   ("id", toString r.id),
   ("created_at", r.created_at.getD "null"),
   ("avatar", r.avatar.getD "null"),
   ("confirmed", if r.confirmed then "true" else "false")]

/-- `get_all_users` (src/api/v1/users.py:51-66) composed with its
`response_model`: paginate via `UserRepository.get_users`
(src/repository/users.py:39-46) and serialize each row through the public
schema. -/
def get_all_users (db : UsersDb) (skip limit : Nat) : List UserResponseSchema :=
  ((db.rows.drop skip).take limit).map toUserResponse

/-! ## Calendar lemmas -/

theorem daysInMonth_ge (y m : Nat) : 28 ≤ daysInMonth y m := by
  unfold daysInMonth
  split
  · split <;> omega
  · split <;> omega

theorem daysInMonth_le (y m : Nat) : daysInMonth y m ≤ 31 := by
  unfold daysInMonth
  split
  · split <;> omega
  · split <;> omega

theorem daysInMonth_of_ne_two (y y' m : Nat) (h : m ≠ 2) :
    daysInMonth y m = daysInMonth y' m := by
  unfold daysInMonth
  simp [h]

/-- A valid day number for month `m` in some year also fits in any other
year, except day 29 of February. -/
theorem day_le_daysInMonth_transfer (y y' m d : Nat)
    (h : d ≤ daysInMonth y m) (hne : ¬(m = 2 ∧ d = 29)) :
    d ≤ daysInMonth y' m := by
  by_cases hm : m = 2
  · subst hm
    have h29 : d ≠ 29 := fun hd => hne ⟨rfl, hd⟩
    have := daysInMonth_ge y' 2
    unfold daysInMonth at h
    simp at h
    rcases Bool.eq_false_or_eq_true (isLeapYear y) with hl | hl <;> simp [hl] at h <;> omega
  · rw [daysInMonth_of_ne_two y' y m hm]
    exact h

theorem addDays_add (d : PyDate) (a b : Nat) :
    addDays d (a + b) = addDays (addDays d a) b := by
  induction b with
  | zero => rfl
  | succ n ih => rw [← Nat.add_assoc, addDays, addDays, ih]

/-- Adding `k` days without leaving the month of `d`. -/
theorem addDays_small (d : PyDate) (k : Nat)
    (h : d.day + k ≤ daysInMonth d.year d.month) :
    addDays d k = ⟨d.year, d.month, d.day + k⟩ := by
  induction k with
  | zero => cases d; rfl
  | succ n ih =>
    have hn : d.day + n ≤ daysInMonth d.year d.month := by omega
    rw [addDays, ih hn]
    unfold nextDate
    have hlt : d.day + n < daysInMonth d.year d.month := by omega
    simp only [hlt, if_pos]
    rfl

/-- Adding `k` days across the end of the month of `d` (for `k` small
enough to stay inside the next month). -/
theorem addDays_cross (d : PyDate) (k : Nat)
    (hL : d.day ≤ daysInMonth d.year d.month)
    (h1 : daysInMonth d.year d.month < d.day + k)
    (h2 : d.day + k ≤ daysInMonth d.year d.month + 28) :
    addDays d k = ⟨(nextMonthStart d).year, (nextMonthStart d).month,
      d.day + k - daysInMonth d.year d.month⟩ := by
  set L := daysInMonth d.year d.month with hLdef
  set j := L - d.day with hjdef
  have hk : k = (j + 1) + (k - j - 1) := by omega
  rw [hk, addDays_add]
  have hstep : addDays d (j + 1) = nextMonthStart d := by
    rw [addDays, addDays_small d j (by omega)]
    unfold nextDate nextMonthStart
    have hdj : d.day + j = L := by omega
    simp only [hdj]
    rw [if_neg (by omega)]
  rw [hstep]
  have hday1 : (nextMonthStart d).day = 1 := by
    unfold nextMonthStart; split <;> rfl
  have hbig : 28 ≤ daysInMonth (nextMonthStart d).year (nextMonthStart d).month :=
    daysInMonth_ge _ _
  have hsm : (nextMonthStart d).day + (k - j - 1) ≤
      daysInMonth (nextMonthStart d).year (nextMonthStart d).month := by
    rw [hday1]; omega
  rw [addDays_small _ _ hsm, hday1]
  congr 1
  omega

/-- The month after a month in range 1..12 has a different number. -/
theorem nextMonthStart_month_ne (d : PyDate) (h1 : 1 ≤ d.month) (h2 : d.month ≤ 12) :
    d.month ≠ (nextMonthStart d).month := by
  unfold nextMonthStart
  split <;> simp <;> omega

theorem addDays_small_month (d : PyDate) (k : Nat)
    (h : d.day + k ≤ daysInMonth d.year d.month) :
    (addDays d k).month = d.month := by
  rw [addDays_small d k h]

theorem addDays_small_day (d : PyDate) (k : Nat)
    (h : d.day + k ≤ daysInMonth d.year d.month) :
    (addDays d k).day = d.day + k := by
  rw [addDays_small d k h]

theorem addDays_cross_month (d : PyDate) (k : Nat)
    (hL : d.day ≤ daysInMonth d.year d.month)
    (h1 : daysInMonth d.year d.month < d.day + k)
    (h2 : d.day + k ≤ daysInMonth d.year d.month + 28) :
    (addDays d k).month = (nextMonthStart d).month := by
  rw [addDays_cross d k hL h1 h2]

theorem addDays_cross_day (d : PyDate) (k : Nat)
    (hL : d.day ≤ daysInMonth d.year d.month)
    (h1 : daysInMonth d.year d.month < d.day + k)
    (h2 : d.day + k ≤ daysInMonth d.year d.month + 28) :
    (addDays d k).day = d.day + k - daysInMonth d.year d.month := by
  rw [addDays_cross d k hL h1 h2]

/-- Core equivalence for the upcoming-birthday query: for a valid birthday
other than February 29, the WHERE clause built by the query holds exactly
when the birthday month/day occurs among the dates of the window
`today .. today + 7`. -/
theorem birthdayCondition_iff_window (today b : PyDate)
    (hT : ValidDate today) (hB : ValidDate b)
    (hFeb : ¬(b.month = 2 ∧ b.day = 29)) :
    birthdayCondition today 7 b = true ↔ inBirthdayWindow today 7 b = true := by
  obtain ⟨hTm1, hTm2, hTd1, hTd2⟩ := hT
  obtain ⟨hBm1, hBm2, hBd1, hBd2⟩ := hB
  by_cases hcase : today.day + 7 ≤ daysInMonth today.year today.month
  · -- the whole window stays inside the current month
    have hm7 := addDays_small_month today 7 hcase
    have hd7 := addDays_small_day today 7 hcase
    simp only [birthdayCondition, inBirthdayWindow, hm7, hd7,
      eq_self_iff_true, ite_true, List.any_eq_true, List.mem_range,
      Bool.and_eq_true, beq_iff_eq, decide_eq_true_eq]
    constructor
    · rintro ⟨⟨hm, hd1⟩, hd2⟩
      refine ⟨b.day - today.day, by omega, ?_, ?_⟩
      · rw [addDays_small_month today _ (by omega)]; omega
      · rw [addDays_small_day today _ (by omega)]; omega
    · rintro ⟨k, hk, hm, hd⟩
      rw [addDays_small_month today k (by omega)] at hm
      rw [addDays_small_day today k (by omega)] at hd
      exact ⟨⟨hm.symm, by omega⟩, by omega⟩
  · -- the window crosses into the next month
    push_neg at hcase
    have h28 : today.day + 7 ≤ daysInMonth today.year today.month + 28 := by omega
    have hm7 := addDays_cross_month today 7 hTd2 hcase h28
    have hd7 := addDays_cross_day today 7 hTd2 hcase h28
    have hne := nextMonthStart_month_ne today hTm1 hTm2
    simp only [birthdayCondition, inBirthdayWindow, hm7, hd7]
    rw [if_neg hne]
    simp only [List.any_eq_true, List.mem_range, Bool.or_eq_true,
      Bool.and_eq_true, beq_iff_eq, decide_eq_true_eq]
    constructor
    · rintro (⟨hm, hd⟩ | ⟨hm, hd⟩)
      · -- rest of the current month
        have hble : b.day ≤ daysInMonth today.year today.month := by
          have ht := day_le_daysInMonth_transfer b.year today.year b.month b.day hBd2 hFeb
          rwa [hm] at ht
        refine ⟨b.day - today.day, by omega, ?_, ?_⟩
        · rw [addDays_small_month today _ (by omega)]; omega
        · rw [addDays_small_day today _ (by omega)]; omega
      · -- start of the next month
        refine ⟨daysInMonth today.year today.month - today.day + b.day, by omega, ?_, ?_⟩
        · rw [addDays_cross_month today _ hTd2 (by omega) (by omega)]; omega
        · rw [addDays_cross_day today _ hTd2 (by omega) (by omega)]; omega
    · rintro ⟨k, hk, hm, hd⟩
      by_cases hsm : today.day + k ≤ daysInMonth today.year today.month
      · rw [addDays_small_month today k hsm] at hm
        rw [addDays_small_day today k hsm] at hd
        left; exact ⟨hm.symm, by omega⟩
      · push_neg at hsm
        rw [addDays_cross_month today k hTd2 hsm (by omega)] at hm
        rw [addDays_cross_day today k hTd2 hsm (by omega)] at hd
        right; exact ⟨hm.symm, by omega⟩

/-! ## Claim theorems -/

/-- C3: for every token and expected scope, `decode_jwt_token` rejects a
token whose scope claim differs from the expected scope with a 401
unauthorized error — in particular a `verification_token` presented where
an `access_token` is expected, and vice versa. -/
theorem token_scope_mismatch_rejected
    (issue_now decode_now : Int) (email : Option String)
    (issued expected : String) (delta : Int) (h : issued ≠ expected) :
    ∃ e : HTTPEx,
      decode_jwt_token decode_now (create_jwt_token issue_now email issued delta)
        expected = .error e ∧ e.statusCode = 401 := by
  unfold create_jwt_token decode_jwt_token
  by_cases hexp : issue_now + delta * 60 < decode_now
  · exact ⟨⟨401, "Could not validate credentials"⟩, by rw [if_pos (Or.inr hexp)], rfl⟩
  · refine ⟨⟨401, "Invalid token scope"⟩, ?_, rfl⟩
    rw [if_neg (by simp [hexp])]
    rw [if_pos (by simpa using h)]

/-- Witness for C3 at concrete scopes: a verification token is rejected
where an access token is expected, and an access token is rejected where a
verification token is expected. -/
theorem token_scope_mismatch_rejected_witness :
    ("verification_token" ≠ "access_token" ∧
      ∃ e : HTTPEx,
        decode_jwt_token 0 (create_jwt_token 0 (some "a@b.com") "verification_token" 15)
          "access_token" = .error e ∧ e.statusCode = 401) ∧
    ("access_token" ≠ "verification_token" ∧
      ∃ e : HTTPEx,
        decode_jwt_token 0 (create_jwt_token 0 (some "a@b.com") "access_token" 15)
          "verification_token" = .error e ∧ e.statusCode = 401) :=
  ⟨⟨by decide,
    token_scope_mismatch_rejected 0 0 (some "a@b.com") "verification_token" "access_token" 15
      (by decide)⟩,
   ⟨by decide,
    token_scope_mismatch_rejected 0 0 (some "a@b.com") "access_token" "verification_token" 15
      (by decide)⟩⟩

/-- C7: decoding any token whose expiry lies strictly in the past fails
with the 401 credentials error, whether or not its signature verifies. -/
theorem expired_token_rejected (now : Int) (t : Token) (scope : String)
    (h : t.exp < now) :
    decode_jwt_token now t scope = .error ⟨401, "Could not validate credentials"⟩ := by
  unfold decode_jwt_token
  rw [if_pos (Or.inr h)]

/-- Witness for C7: a token that expired one second ago is rejected, both
with a valid and with an invalid signature. -/
theorem expired_token_rejected_witness :
    ((10 : Int) < 11 ∧
      decode_jwt_token 11 ⟨some "a@b.com", some "access_token", 10, true⟩ "access_token" =
        .error ⟨401, "Could not validate credentials"⟩) ∧
    ((10 : Int) < 11 ∧
      decode_jwt_token 11 ⟨some "a@b.com", some "access_token", 10, false⟩ "access_token" =
        .error ⟨401, "Could not validate credentials"⟩) :=
  ⟨⟨by decide,
    expired_token_rejected 11 ⟨some "a@b.com", some "access_token", 10, true⟩
      "access_token" (by decide)⟩,
   ⟨by decide,
    expired_token_rejected 11 ⟨some "a@b.com", some "access_token", 10, false⟩
      "access_token" (by decide)⟩⟩

/-- C5 counterexample: `get_current_user` is not cache-first. With a cache
holding the serialized user for the token's email and an empty database,
the cache-first resolver described by the spec returns the cached user,
while the implemented resolver answers 401 — it always goes to the
database. -/
theorem get_current_user_not_cache_first :
    (get_current_user 0 (create_jwt_token 0 (some "a@b.com") "access_token" 15)
        [("a@b.com", ⟨1, "alice", "a@b.com", "hp", "t0", none, true⟩)]
        ⟨[], 0⟩).1 = .error ⟨401, "Could not validate credentials"⟩ ∧
    (spec_get_current_user 0 (create_jwt_token 0 (some "a@b.com") "access_token" 15)
        [("a@b.com", ⟨1, "alice", "a@b.com", "hp", "t0", none, true⟩)]
        ⟨[], 0⟩).1 = .ok ⟨1, "alice", "a@b.com", "hp", "t0", none, true⟩ :=
  ⟨rfl, rfl⟩

/-- C5 amended: resolving the current caller decodes the token and looks
the identity up directly in the database; the identity cache is never read
(the outcome is the same for any two cache states) and never written (the
cache is returned unchanged). -/
theorem get_current_user_ignores_cache
    (now : Int) (token : Token) (cache cache2 : IdentityCache) (db : UsersDb) :
    (get_current_user now token cache db).2 = cache ∧
    (get_current_user now token cache db).1 = (get_current_user now token cache2 db).1 := by
  unfold get_current_user
  cases hdec : decode_jwt_token now token "access_token" with
  | error e => exact ⟨rfl, rfl⟩
  | ok oe =>
    cases oe with
    | none => exact ⟨rfl, rfl⟩
    | some email =>
      cases hu : get_user_by_email db email with
      | none => simp [hu]
      | some u => simp [hu]

/-- C9: the public user shape carries exactly the keys username, email, id,
created_at, avatar, confirmed — never the stored password hash: the
serialized response is unchanged by any rewriting of the stored hash, both
for a single row and for the paginated user-list endpoint. -/
theorem user_response_never_exposes_hash
    (u : UserModel) (hp : String) (db : UsersDb) (skip limit : Nat)
    (f : UserModel → String) :
    toUserResponse { u with hashed_password := hp } = toUserResponse u ∧
    (userResponseJson (toUserResponse u)).map Prod.fst =
      ["username", "email", "id", "created_at", "avatar", "confirmed"] ∧
    "hashed_password" ∉ (userResponseJson (toUserResponse u)).map Prod.fst ∧
    get_all_users
      { db with rows := db.rows.map (fun v => { v with hashed_password := f v }) }
      skip limit = get_all_users db skip limit := by
  have hkeys : (userResponseJson (toUserResponse u)).map Prod.fst =
      ["username", "email", "id", "created_at", "avatar", "confirmed"] := rfl
  refine ⟨rfl, hkeys, by rw [hkeys]; decide, ?_⟩
  unfold get_all_users
  have hmask :
      ((db.rows.map (fun v => { v with hashed_password := f v })).drop skip).take limit =
        ((db.rows.drop skip).take limit).map (fun v => { v with hashed_password := f v }) := by
    rw [List.map_take, List.map_drop]
  rw [hmask, List.map_map]
  have hcomp :
      (toUserResponse ∘ fun v => { v with hashed_password := f v }) = toUserResponse :=
    funext fun v => rfl
  rw [hcomp]

/-- C10: for a contact id absent from the database, `update_contact` and
`delete_contact` return `None` and leave the session state — rows and
commit count alike — unchanged. -/
theorem missing_contact_update_delete_noop
    (db : ContactsDb) (cid : Nat) (body : ContactUpdate)
    (h : get_contact_by_id db cid = none) :
    update_contact db cid body = (db, none) ∧ delete_contact db cid = (db, none) := by
  unfold get_contact_by_id at h
  unfold update_contact delete_contact
  rw [h]
  exact ⟨rfl, rfl⟩

/-- Witness for C10: updating or deleting id 2 in a one-row table holding
only id 1 changes nothing and returns `None`. -/
theorem missing_contact_update_delete_noop_witness :
    get_contact_by_id ⟨[⟨1, "A", "B", "a@b.com", "+1", ⟨2024, 5, 1⟩, none, 1⟩], 3⟩ 2 = none ∧
    update_contact ⟨[⟨1, "A", "B", "a@b.com", "+1", ⟨2024, 5, 1⟩, none, 1⟩], 3⟩ 2
        { first_name := some "Z" } =
      (⟨[⟨1, "A", "B", "a@b.com", "+1", ⟨2024, 5, 1⟩, none, 1⟩], 3⟩, none) ∧
    delete_contact ⟨[⟨1, "A", "B", "a@b.com", "+1", ⟨2024, 5, 1⟩, none, 1⟩], 3⟩ 2 =
      (⟨[⟨1, "A", "B", "a@b.com", "+1", ⟨2024, 5, 1⟩, none, 1⟩], 3⟩, none) := by
  refine ⟨rfl, ?_⟩
  have h := missing_contact_update_delete_noop
    ⟨[⟨1, "A", "B", "a@b.com", "+1", ⟨2024, 5, 1⟩, none, 1⟩], 3⟩ 2
    { first_name := some "Z" } rfl
  exact h

/-- C4: signing up with an email that already belongs to a stored user
yields a 409 conflict and leaves the users table (and commit count)
unchanged — no duplicate row is ever created. The effective handler is the
first-registered `/auth/signup` route, which performs the duplicate check
before creating anything. -/
theorem signup_duplicate_email_conflict
    (db : UsersDb) (body : UserCreateSchema)
    (h : (get_user_by_email db body.email).isSome) :
    signup db body = (.error (.http ⟨409, "Account already exists"⟩), db) := by
  have hroute : signup db body = signup_first db body := rfl
  rw [hroute]
  unfold signup_first
  cases hu : get_user_by_email db body.email with
  | none => rw [hu] at h; simp at h
  | some u => rfl

/-- Witness for C4: registering `a@b.com` a second time returns the 409
conflict and the stored table is exactly what it was. -/
theorem signup_duplicate_email_conflict_witness :
    (get_user_by_email ⟨[⟨1, "alice", "a@b.com", "hp", "t0", none, false⟩], 1⟩
        "a@b.com").isSome ∧
    signup ⟨[⟨1, "alice", "a@b.com", "hp", "t0", none, false⟩], 1⟩
        ⟨"alice2", "a@b.com", "secret"⟩ =
      (.error (.http ⟨409, "Account already exists"⟩),
        ⟨[⟨1, "alice", "a@b.com", "hp", "t0", none, false⟩], 1⟩) :=
  ⟨by decide,
   signup_duplicate_email_conflict
     ⟨[⟨1, "alice", "a@b.com", "hp", "t0", none, false⟩], 1⟩
     ⟨"alice2", "a@b.com", "secret"⟩ (by decide)⟩

/-- C8: at the failing input — a stored, not-yet-confirmed user asking for
a re-send — `request_email` raises `AttributeError` (`user_repo.email` on
an object with no such attribute) instead of returning the success
message; for an already-confirmed user the early return does answer that
the email is already confirmed. -/
theorem request_email_crashes_for_unconfirmed :
    request_email ⟨[⟨1, "bob", "b@x.com", "hp", "t0", none, false⟩], 0⟩ "b@x.com" =
      .error .attributeError ∧
    request_email ⟨[⟨1, "bob", "b@x.com", "hp", "t0", none, true⟩], 0⟩ "b@x.com" =
      .ok "Your email is already confirmed" :=
  ⟨rfl, rfl⟩

/-- The condition loop on a mapping whose every key is a mapped column or
bound to nothing succeeds and keeps exactly the column keys. -/
theorem searchConditions_benign (extra : String → Bool)
    (filters : List (String × String))
    (h : ∀ fv ∈ filters, recognizedField fv.1 = true ∨ extra fv.1 = false) :
    searchConditions extra filters =
      .ok (filters.filter (fun fv => recognizedField fv.1)) := by
  induction filters with
  | nil => rfl
  | cons fv rest ih =>
    have hrest : ∀ gv ∈ rest, recognizedField gv.1 = true ∨ extra gv.1 = false :=
      fun gv hgv => h gv (List.mem_cons_of_mem fv hgv)
    unfold searchConditions
    by_cases hr : recognizedField fv.1 = true
    · rw [if_pos hr, ih hrest]
      simp [List.filter_cons, hr, Except.map]
    · have hx : extra fv.1 = false := by
        rcases h fv (List.mem_cons_self fv rest) with h1 | h1
        · exact absurd h1 hr
        · exact h1
      rw [if_neg hr, if_neg (by simp [hx]), ih hrest]
      simp [List.filter_cons, hr]

/-- The condition loop raises `AttributeError` as soon as the mapping holds
a key naming a non-column class attribute. -/
theorem searchConditions_raises (extra : String → Bool)
    (filters : List (String × String))
    (h : ∃ fv ∈ filters, recognizedField fv.1 = false ∧ extra fv.1 = true) :
    searchConditions extra filters = .error .attributeError := by
  induction filters with
  | nil => simp at h
  | cons fv rest ih =>
    obtain ⟨gv, hmem, hg1, hg2⟩ := h
    unfold searchConditions
    by_cases hr : recognizedField fv.1 = true
    · have hgr : gv ∈ rest := by
        rcases List.mem_cons.mp hmem with heq | hm
        · subst heq; rw [hr] at hg1; exact absurd hg1 (by simp)
        · exact hm
      rw [if_pos hr, ih ⟨gv, hgr, hg1, hg2⟩]
      rfl
    · by_cases hx : extra fv.1 = true
      · rw [if_neg hr, if_pos hx]
      · have hgr : gv ∈ rest := by
          rcases List.mem_cons.mp hmem with heq | hm
          · subst heq; exact absurd hg2 hx
          · exact hm
        rw [if_neg hr, if_neg hx]
        exact ih ⟨gv, hgr, hg1, hg2⟩

/-- C6 counterexample: the search does not silently ignore every key that
names no contact field. The key `metadata` names no contact field, yet the
repository search raises `AttributeError` (a 500, not an empty result)
because `getattr` finds the declarative class attribute and `.ilike` fails
on it; and at the HTTP surface even a key bound to nothing produces a 404
error response instead of an empty set. -/
theorem search_unrecognized_not_silently_ignored :
    search_contacts_repo (fun f => knownNonColumnAttrs.contains f)
        ⟨[⟨1, "A", "B", "a@b.com", "+1", ⟨2024, 5, 1⟩, none, 1⟩], 0⟩
        [("metadata", "x")] = .error .attributeError ∧
    recognizedField "metadata" = false ∧
    get_search_contacts (fun f => knownNonColumnAttrs.contains f)
        ⟨[⟨1, "A", "B", "a@b.com", "+1", ⟨2024, 5, 1⟩, none, 1⟩], 0⟩
        [("nonsense", "x")] =
      .error (.http ⟨404, "No contacts found for the given criteria."⟩) :=
  ⟨rfl, rfl, rfl⟩

/-- C6 amended, for any non-column attribute namespace `extra`: a key bound
to nothing on the model class is silently ignored (the search equals the
search restricted to the mapped-column keys, provided no key hits a
non-column attribute), and a nonempty mapping whose keys are all bound to
nothing yields the empty list at the repository without an exception —
which the HTTP endpoint then maps to a 404 error response; but a mapping
holding any key that names a non-column class attribute (such as `user`,
`__tablename__`, `metadata`, `registry`) makes the search raise
`AttributeError` instead of ignoring that key. -/
theorem search_ignores_unbound_fields
    (extra : String → Bool) (db : ContactsDb) (filters : List (String × String)) :
    ((∀ fv ∈ filters, recognizedField fv.1 = true ∨ extra fv.1 = false) →
      search_contacts_repo extra db filters =
        search_contacts_repo extra db
          (filters.filter (fun fv => recognizedField fv.1))) ∧
    (filters ≠ [] →
      (∀ fv ∈ filters, recognizedField fv.1 = false ∧ extra fv.1 = false) →
      search_contacts_repo extra db filters = .ok [] ∧
      get_search_contacts extra db filters =
        .error (.http ⟨404, "No contacts found for the given criteria."⟩)) ∧
    ((∃ fv ∈ filters, recognizedField fv.1 = false ∧ extra fv.1 = true) →
      search_contacts_repo extra db filters = .error .attributeError) := by
  refine ⟨?_, ?_, ?_⟩
  · intro hben
    by_cases h0 : filters.isEmpty
    · rw [List.isEmpty_iff] at h0
      subst h0
      rfl
    · have hres : ∀ gv ∈ filters.filter (fun fv => recognizedField fv.1),
          recognizedField gv.1 = true ∨ extra gv.1 = false :=
        fun gv hgv => Or.inl ((List.mem_filter.mp hgv).2)
      have hff : (filters.filter (fun fv => recognizedField fv.1)).filter
          (fun fv => recognizedField fv.1) =
          filters.filter (fun fv => recognizedField fv.1) := by
        rw [List.filter_filter]
        simp
      unfold search_contacts_repo
      rw [if_neg h0, searchConditions_benign extra filters hben]
      by_cases hc : (filters.filter (fun fv => recognizedField fv.1)).isEmpty
      · rw [List.isEmpty_iff] at hc
        rw [hc]
        rfl
      · rw [if_neg hc, searchConditions_benign extra _ hres, hff]
  · intro hne hall
    have hcond : filters.filter (fun fv => recognizedField fv.1) = [] := by
      rw [List.filter_eq_nil_iff]
      intro fv hfv
      simp [(hall fv hfv).1]
    have hrepo : search_contacts_repo extra db filters = .ok [] := by
      unfold search_contacts_repo
      rw [if_neg (by simpa [List.isEmpty_iff] using hne)]
      rw [searchConditions_benign extra filters
        (fun fv hfv => Or.inr (hall fv hfv).2), hcond]
      rfl
    refine ⟨hrepo, ?_⟩
    unfold get_search_contacts
    rw [hrepo]
    rfl
  · intro hbad
    have hne : ¬filters.isEmpty := by
      obtain ⟨fv, hmem, _⟩ := hbad
      cases filters with
      | nil => simp at hmem
      | cons a t => simp
    unfold search_contacts_repo
    rw [if_neg hne, searchConditions_raises extra filters hbad]

/-- Witness for C6: with one stored contact and the known non-column
attributes, a mixed mapping whose second key is bound to nothing drops that
key; a mapping holding only such a key gives the empty list at the
repository and a 404 at the endpoint; and the key `metadata` makes the
search raise `AttributeError`. -/
theorem search_ignores_unbound_fields_witness :
    (search_contacts_repo (fun f => knownNonColumnAttrs.contains f)
        ⟨[⟨1, "Ann", "Lee", "a@b.com", "+1", ⟨2024, 5, 1⟩, none, 1⟩], 0⟩
        [("first_name", "an"), ("nonsense", "x")] =
      search_contacts_repo (fun f => knownNonColumnAttrs.contains f)
        ⟨[⟨1, "Ann", "Lee", "a@b.com", "+1", ⟨2024, 5, 1⟩, none, 1⟩], 0⟩
        ([("first_name", "an"), ("nonsense", "x")].filter
          (fun fv => recognizedField fv.1))) ∧
    (search_contacts_repo (fun f => knownNonColumnAttrs.contains f)
        ⟨[⟨1, "Ann", "Lee", "a@b.com", "+1", ⟨2024, 5, 1⟩, none, 1⟩], 0⟩
        [("nonsense", "x")] = .ok [] ∧
      get_search_contacts (fun f => knownNonColumnAttrs.contains f)
        ⟨[⟨1, "Ann", "Lee", "a@b.com", "+1", ⟨2024, 5, 1⟩, none, 1⟩], 0⟩
        [("nonsense", "x")] =
        .error (.http ⟨404, "No contacts found for the given criteria."⟩)) ∧
    search_contacts_repo (fun f => knownNonColumnAttrs.contains f)
        ⟨[⟨1, "Ann", "Lee", "a@b.com", "+1", ⟨2024, 5, 1⟩, none, 1⟩], 0⟩
        [("user", "x")] = .error .attributeError :=
  ⟨(search_ignores_unbound_fields (fun f => knownNonColumnAttrs.contains f)
      ⟨[⟨1, "Ann", "Lee", "a@b.com", "+1", ⟨2024, 5, 1⟩, none, 1⟩], 0⟩
      [("first_name", "an"), ("nonsense", "x")]).1 (by decide),
   (search_ignores_unbound_fields (fun f => knownNonColumnAttrs.contains f)
      ⟨[⟨1, "Ann", "Lee", "a@b.com", "+1", ⟨2024, 5, 1⟩, none, 1⟩], 0⟩
      [("nonsense", "x")]).2.1 (by decide) (by decide),
   (search_ignores_unbound_fields (fun f => knownNonColumnAttrs.contains f)
      ⟨[⟨1, "Ann", "Lee", "a@b.com", "+1", ⟨2024, 5, 1⟩, none, 1⟩], 0⟩
      [("user", "x")]).2.2 (by decide)⟩

/-- The row stored for `cid` after the `setattr`-and-commit step of
`update_contact` is the updated image of the row previously stored there. -/
theorem find?_contact_rows_after_update
    (rows : List ContactsModel) (cid : Nat) (body : ContactUpdate) (c : ContactsModel)
    (h : rows.find? (fun r => r.id == cid) = some c) :
    (rows.map (fun r => if r.id == cid then applyContactUpdate r body else r)).find?
      (fun r => r.id == cid) = some (applyContactUpdate c body) := by
  induction rows with
  | nil => simp at h
  | cons a t ih =>
    cases ha : (a.id == cid) with
    | true =>
      rw [List.find?_cons] at h
      simp only [ha] at h
      injection h with h
      subst h
      rw [List.map_cons, if_pos ha, List.find?_cons]
      have hb : ((applyContactUpdate a body).id == cid) = true := ha
      simp only [hb]
    | false =>
      rw [List.find?_cons] at h
      simp only [ha] at h
      rw [List.map_cons, if_neg (by simp [ha]), List.find?_cons]
      simp only [ha]
      exact ih h

/-- Same statement for the users table and `update_user`. -/
theorem find?_user_rows_after_update
    (rows : List UserModel) (uid : Nat) (body : UserUpdateSchema) (u : UserModel)
    (h : rows.find? (fun r => r.id == uid) = some u) :
    (rows.map (fun r => if r.id == uid then applyUserUpdate r body else r)).find?
      (fun r => r.id == uid) = some (applyUserUpdate u body) := by
  induction rows with
  | nil => simp at h
  | cons a t ih =>
    cases ha : (a.id == uid) with
    | true =>
      rw [List.find?_cons] at h
      simp only [ha] at h
      injection h with h
      subst h
      rw [List.map_cons, if_pos ha, List.find?_cons]
      have hb : ((applyUserUpdate a body).id == uid) = true := ha
      simp only [hb]
    | false =>
      rw [List.find?_cons] at h
      simp only [ha] at h
      rw [List.map_cons, if_neg (by simp [ha]), List.find?_cons]
      simp only [ha]
      exact ih h

/-- C1: partial update touches only the fields present in the payload.
After `update_contact` the stored row is the `setattr` image of the old
row, and that image keeps the old value of every field absent from the
payload (`exclude_unset`); likewise for `update_user`. Fields never carried
by the payload schemas (contact id, owner; user id, password hash,
creation timestamp, confirmed flag) are always untouched. -/
theorem partial_update_frame
    (cdb : ContactsDb) (cid : Nat) (cbody : ContactUpdate) (c : ContactsModel)
    (udb : UsersDb) (uid : Nat) (ubody : UserUpdateSchema) (u : UserModel) :
    (get_contact_by_id cdb cid = some c →
      get_contact_by_id (update_contact cdb cid cbody).1 cid =
        some (applyContactUpdate c cbody)) ∧
    (cbody.first_name = none → (applyContactUpdate c cbody).first_name = c.first_name) ∧
    (cbody.last_name = none → (applyContactUpdate c cbody).last_name = c.last_name) ∧
    (cbody.email = none → (applyContactUpdate c cbody).email = c.email) ∧
    (cbody.phone_number = none → (applyContactUpdate c cbody).phone_number = c.phone_number) ∧
    (cbody.birthday = none → (applyContactUpdate c cbody).birthday = c.birthday) ∧
    (cbody.other_info = none → (applyContactUpdate c cbody).other_info = c.other_info) ∧
    (applyContactUpdate c cbody).id = c.id ∧
    (applyContactUpdate c cbody).user_id = c.user_id ∧
    (get_user_by_id udb uid = some u →
      get_user_by_id (update_user udb uid ubody).1 uid =
        some (applyUserUpdate u ubody)) ∧
    (ubody.username = none → (applyUserUpdate u ubody).username = u.username) ∧
    (ubody.email = none → (applyUserUpdate u ubody).email = u.email) ∧
    (ubody.avatar = none → (applyUserUpdate u ubody).avatar = u.avatar) ∧
    (applyUserUpdate u ubody).id = u.id ∧
    (applyUserUpdate u ubody).hashed_password = u.hashed_password ∧
    (applyUserUpdate u ubody).created_at = u.created_at ∧
    (applyUserUpdate u ubody).confirmed = u.confirmed := by
  refine ⟨?_, ?_, ?_, ?_, ?_, ?_, ?_, rfl, rfl, ?_, ?_, ?_, ?_, rfl, rfl, rfl, rfl⟩
  · intro h
    unfold get_contact_by_id at h ⊢
    unfold update_contact
    rw [h]
    exact find?_contact_rows_after_update cdb.rows cid cbody c h
  · intro h; simp [applyContactUpdate, h]
  · intro h; simp [applyContactUpdate, h]
  · intro h; simp [applyContactUpdate, h]
  · intro h; simp [applyContactUpdate, h]
  · intro h; simp [applyContactUpdate, h]
  · intro h; simp [applyContactUpdate, h]
  · intro h
    unfold get_user_by_id at h ⊢
    unfold update_user
    rw [h]
    exact find?_user_rows_after_update udb.rows uid ubody u h
  · intro h; simp [applyUserUpdate, h]
  · intro h; simp [applyUserUpdate, h]
  · intro h; simp [applyUserUpdate, h]

/-- Witness for C1: a payload that sets only `first_name` (resp. only
`username`) leaves every other stored field of the row with id 1 as it
was. -/
theorem partial_update_frame_witness :
    get_contact_by_id
        (update_contact ⟨[⟨1, "A", "B", "a@b.com", "+1", ⟨2024, 5, 1⟩, some "n", 7⟩], 0⟩ 1
          { first_name := some "Z" }).1 1 =
      some (applyContactUpdate ⟨1, "A", "B", "a@b.com", "+1", ⟨2024, 5, 1⟩, some "n", 7⟩
        { first_name := some "Z" }) ∧
    (applyContactUpdate ⟨1, "A", "B", "a@b.com", "+1", ⟨2024, 5, 1⟩, some "n", 7⟩
        { first_name := some "Z" }).last_name = "B" ∧
    (applyContactUpdate ⟨1, "A", "B", "a@b.com", "+1", ⟨2024, 5, 1⟩, some "n", 7⟩
        { first_name := some "Z" }).email = "a@b.com" ∧
    (applyContactUpdate ⟨1, "A", "B", "a@b.com", "+1", ⟨2024, 5, 1⟩, some "n", 7⟩
        { first_name := some "Z" }).phone_number = "+1" ∧
    (applyContactUpdate ⟨1, "A", "B", "a@b.com", "+1", ⟨2024, 5, 1⟩, some "n", 7⟩
        { first_name := some "Z" }).birthday = ⟨2024, 5, 1⟩ ∧
    (applyContactUpdate ⟨1, "A", "B", "a@b.com", "+1", ⟨2024, 5, 1⟩, some "n", 7⟩
        { first_name := some "Z" }).other_info = some "n" ∧
    get_user_by_id
        (update_user ⟨[⟨1, "alice", "a@b.com", "hp", "t0", some "av", true⟩], 0⟩ 1
          { username := some "bob" }).1 1 =
      some (applyUserUpdate ⟨1, "alice", "a@b.com", "hp", "t0", some "av", true⟩
        { username := some "bob" }) ∧
    (applyUserUpdate ⟨1, "alice", "a@b.com", "hp", "t0", some "av", true⟩
        { username := some "bob" }).email = "a@b.com" ∧
    (applyUserUpdate ⟨1, "alice", "a@b.com", "hp", "t0", some "av", true⟩
        { username := some "bob" }).avatar = some "av" := by
  have h := partial_update_frame
    ⟨[⟨1, "A", "B", "a@b.com", "+1", ⟨2024, 5, 1⟩, some "n", 7⟩], 0⟩ 1
    { first_name := some "Z" } ⟨1, "A", "B", "a@b.com", "+1", ⟨2024, 5, 1⟩, some "n", 7⟩
    ⟨[⟨1, "alice", "a@b.com", "hp", "t0", some "av", true⟩], 0⟩ 1
    { username := some "bob" } ⟨1, "alice", "a@b.com", "hp", "t0", some "av", true⟩
  refine ⟨h.1 rfl, ?_, ?_, ?_, ?_, ?_, h.2.2.2.2.2.2.2.2.2.1 rfl, ?_, ?_⟩
  · exact h.2.2.1 rfl
  · exact h.2.2.2.1 rfl
  · exact h.2.2.2.2.1 rfl
  · exact h.2.2.2.2.2.1 rfl
  · exact h.2.2.2.2.2.2.1 rfl
  · exact h.2.2.2.2.2.2.2.2.2.2.2.1 rfl
  · exact h.2.2.2.2.2.2.2.2.2.2.2.2.1 rfl

/-- C2 counterexample: the query is not exactly the set of contacts whose
month/day occurs in the window. With today = 2025-02-22 (non-leap year) the
7-day window is Feb 22 .. Mar 1, yet a contact born 2004-02-29 is returned
by the query although no date of the window carries month/day Feb 29. -/
theorem upcoming_birthdays_feb29_overinclusion :
    (⟨1, "A", "B", "a@b.com", "+1", ⟨2004, 2, 29⟩, none, 1⟩ : ContactsModel) ∈
      get_contacts_upcoming_birthdays ⟨2025, 2, 22⟩
        ⟨[⟨1, "A", "B", "a@b.com", "+1", ⟨2004, 2, 29⟩, none, 1⟩], 0⟩ 7 ∧
    inBirthdayWindow ⟨2025, 2, 22⟩ 7 ⟨2004, 2, 29⟩ = false ∧
    ValidDate ⟨2025, 2, 22⟩ ∧ ValidDate ⟨2004, 2, 29⟩ := by
  decide

/-- C2 amended: for every valid "today" and every contact with a valid
birthday other than February 29, the 7-day query returns the contact
exactly when its birthday month/day matches a date of the window
`today .. today + 7` — the condition being split into rest-of-current-month
OR start-of-next-month when the window crosses a month (or year) boundary.
(A February 29 birthday can additionally be returned when the window covers
the end of February of a non-leap year.) -/
theorem upcoming_birthdays_returns_window
    (today : PyDate) (db : ContactsDb) (c : ContactsModel)
    (hT : ValidDate today) (hB : ValidDate c.birthday)
    (hFeb : ¬(c.birthday.month = 2 ∧ c.birthday.day = 29)) :
    c ∈ get_contacts_upcoming_birthdays today db 7 ↔
      c ∈ db.rows ∧ inBirthdayWindow today 7 c.birthday = true := by
  unfold get_contacts_upcoming_birthdays
  rw [List.mem_filter]
  rw [birthdayCondition_iff_window today c.birthday hT hB hFeb]

/-- Witness for C2 near year-end: with today = 2025-12-28, a contact born
January 3 is in the window and returned; one born January 5 (8 days out)
is not returned. -/
theorem upcoming_birthdays_returns_window_witness :
    (ValidDate ⟨2025, 12, 28⟩ ∧ ValidDate ⟨1995, 1, 3⟩ ∧
      ¬((1 : Nat) = 2 ∧ (3 : Nat) = 29) ∧
      ((⟨1, "A", "B", "a@b.com", "+1", ⟨1995, 1, 3⟩, none, 1⟩ : ContactsModel) ∈
          get_contacts_upcoming_birthdays ⟨2025, 12, 28⟩
            ⟨[⟨1, "A", "B", "a@b.com", "+1", ⟨1995, 1, 3⟩, none, 1⟩,
              ⟨2, "C", "D", "c@d.com", "+2", ⟨1990, 1, 5⟩, none, 1⟩], 0⟩ 7 ↔
        (⟨1, "A", "B", "a@b.com", "+1", ⟨1995, 1, 3⟩, none, 1⟩ : ContactsModel) ∈
            [⟨1, "A", "B", "a@b.com", "+1", ⟨1995, 1, 3⟩, none, 1⟩,
              ⟨2, "C", "D", "c@d.com", "+2", ⟨1990, 1, 5⟩, none, 1⟩] ∧
          inBirthdayWindow ⟨2025, 12, 28⟩ 7 ⟨1995, 1, 3⟩ = true)) ∧
    (⟨1, "A", "B", "a@b.com", "+1", ⟨1995, 1, 3⟩, none, 1⟩ : ContactsModel) ∈
      get_contacts_upcoming_birthdays ⟨2025, 12, 28⟩
        ⟨[⟨1, "A", "B", "a@b.com", "+1", ⟨1995, 1, 3⟩, none, 1⟩,
          ⟨2, "C", "D", "c@d.com", "+2", ⟨1990, 1, 5⟩, none, 1⟩], 0⟩ 7 ∧
    (⟨2, "C", "D", "c@d.com", "+2", ⟨1990, 1, 5⟩, none, 1⟩ : ContactsModel) ∉
      get_contacts_upcoming_birthdays ⟨2025, 12, 28⟩
        ⟨[⟨1, "A", "B", "a@b.com", "+1", ⟨1995, 1, 3⟩, none, 1⟩,
          ⟨2, "C", "D", "c@d.com", "+2", ⟨1990, 1, 5⟩, none, 1⟩], 0⟩ 7 :=
  ⟨⟨by decide, by decide, by decide,
    upcoming_birthdays_returns_window ⟨2025, 12, 28⟩
      ⟨[⟨1, "A", "B", "a@b.com", "+1", ⟨1995, 1, 3⟩, none, 1⟩,
        ⟨2, "C", "D", "c@d.com", "+2", ⟨1990, 1, 5⟩, none, 1⟩], 0⟩
      ⟨1, "A", "B", "a@b.com", "+1", ⟨1995, 1, 3⟩, none, 1⟩
      (by decide) (by decide) (by decide)⟩,
   by decide, by decide⟩

end ContactsApp
